import Mathlib

/- Verification development for the rl-replay-viewer rendering layer.

   Shallow embedding of src/rendering/mod.rs and src/main.rs:
   extension negotiation (Device::efficiently_handle_extensions), physical
   device selection (Device::pick_physical / Device::pick_between), queue
   family lookup (Device::find_queue_family_index and its use in
   Device::new), logical-device create-info construction
   (Device::create_logical), swapchain create-info construction
   (Device::link_to_window), teardown order (Drop for Device, the field
   drop order of App and WindowView), and the resumed event handler
   (App::resumed). -/

/-- The error enum `VulkanError` of src/rendering/mod.rs (lines 14-23).
    The foreign payloads (ash::LoadingError, vk::Result, std NulError,
    winit HandleError / OsError) are modelled opaquely, vk::Result as a
    numeric code. -/
inductive VulkanError
  | Loading
  | Error (code : Nat)
  | NoSuitableDevice
  | UnableToFindQueueFamily
  | NulError
  | WindowHandleError
  | OsError
deriving DecidableEq

/-- Outcome of running a fallible Rust function that may also panic:
    `ok` models `Ok(..)`, `err` models `Err(..)`, and `panic` models a
    Rust panic (from `.expect(..)`, an out-of-bounds index, or a debug
    arithmetic overflow), carrying the panic message. -/
inductive CRes (α : Type)
  | ok (val : α)
  | err (e : VulkanError)
  | panic (msg : String)
deriving DecidableEq

/-- `CString::from_str(s)` fails exactly when `s` contains a NUL byte;
    this is the validity check behind `.expect("CString error")` in
    Device::efficiently_handle_extensions (mod.rs line 149-151). -/
def hasInteriorNul (s : String) : Bool :=
  s.toList.contains (Char.ofNat 0)

/-- First phase of the `append` closure (mod.rs lines 146-154): iterate
    over the caller strings `src1`; for each, evaluate
    `CString::from_str(s).expect("CString error")` (panicking on a NUL
    byte) and then store the pointer at `dest[i]` (panicking when `i` is
    outside `dest`, whose length is `destLen`). The list returned is the
    sequence of values written. -/
def copyCaller (destLen : Nat) : Nat → List String → CRes (List String)
  | _, [] => CRes.ok []
  | i, s :: rest =>
    if hasInteriorNul s then CRes.panic "CString error"
    else if i < destLen then
      match copyCaller destLen (i + 1) rest with
      | CRes.ok l => CRes.ok (s :: l)
      | r => r
    else CRes.panic "index out of bounds"

/-- The body of the second phase of the `append` closure, unrolled on the
    number of remaining iterations `k = destLen - i`: each iteration reads
    `src2[i - src1.len()]` (panicking when that index is out of bounds)
    and advances `i`. -/
def fillLoop (src1Len : Nat) (src2 : List String) : Nat → Nat → CRes (List String)
  | _, 0 => CRes.ok []
  | i, k + 1 =>
    match src2.get? (i - src1Len) with
    | some s =>
      match fillLoop src1Len src2 (i + 1) k with
      | CRes.ok l => CRes.ok (s :: l)
      | r => r
    | none => CRes.panic "index out of bounds"

/-- Second phase of the `append` closure (mod.rs lines 155-160):
    `while i < dest.len() { dest[i] = src2[i - src1.len()]; i += 1 }`,
    starting from `i` with `dest.len() = destLen`; the loop runs exactly
    `destLen - i` times. Returns the values written at indices
    `i, i+1, ..., destLen - 1`. -/
def fillFrom (destLen src1Len : Nat) (src2 : List String) (i : Nat) :
    CRes (List String) :=
  fillLoop src1Len src2 i (destLen - i)

/-- The `append` closure of Device::efficiently_handle_extensions
    (mod.rs lines 145-161): fill a destination slice of length `destLen`
    with the caller strings `src1` followed by entries of `src2`. -/
def appendExts (destLen : Nat) (src1 src2 : List String) :
    CRes (List String) :=
  match copyCaller destLen 0 src1 with
  | CRes.ok l1 =>
    match fillFrom destLen src1.length src2 src1.length with
    | CRes.ok l2 => CRes.ok (l1 ++ l2)
    | CRes.err e => CRes.err e
    | CRes.panic m => CRes.panic m
  | CRes.err e => CRes.err e
  | CRes.panic m => CRes.panic m

/-- `ash::khr::swapchain::NAME`, the single presentation extension the
    source appends to the device list (mod.rs line 132). -/
def swapchainExtName : String := "VK_KHR_swapchain"

/-- Device::efficiently_handle_extensions (mod.rs lines 125-165).

    Inputs: `instance_required` is the platform-mandated instance
    extension list reported by ash_window::enumerate_required_extensions
    (taken here as an input; the claims quantify over it);
    `instExts` / `devExts` are the caller-supplied lists (the source
    parameters `instance` and `device`; renamed because `instance` is a
    Lean keyword).

    The source computes `l_inst_cp = instance.len() + instance_required
    .len()` and `l_dev_cp = device.len() + device_required.len()` with
    `device_required = [swapchain::NAME]`, then creates the two
    destination slices with lengths `l_inst_cp - 1` and `l_dev_cp - 1`
    (the `- 1` is literally in the source at lines 142-143); in a debug
    build a usize subtraction underflow (`l_inst_cp = 0`) panics before
    either append runs.  It then runs `append` on the instance slice and
    then on the device slice. -/
def efficiently_handle_extensions (instance_required : List String)
    (instExts devExts : List String) :
    CRes (List String × List String) :=
  let device_required := [swapchainExtName]
  let l_inst_cp := instExts.length + instance_required.length
  let l_dev_cp := devExts.length + device_required.length
  if l_inst_cp = 0 then CRes.panic "attempt to subtract with overflow"
  else
    match appendExts (l_inst_cp - 1) instExts instance_required with
    | CRes.ok instList =>
      match appendExts (l_dev_cp - 1) devExts device_required with
      | CRes.ok devList => CRes.ok (instList, devList)
      | CRes.err e => CRes.err e
      | CRes.panic m => CRes.panic m
    | CRes.err e => CRes.err e
    | CRes.panic m => CRes.panic m

/-- `ash::vk::PhysicalDeviceType` (the variants the source distinguishes,
    plus representatives of the "all other types" arm: CPU and OTHER). -/
inductive PDType
  | discrete_gpu
  | integrated_gpu
  | virtual_gpu
  | cpu
  | other_ty
deriving DecidableEq

instance : Fintype PDType :=
  ⟨⟨{PDType.discrete_gpu, PDType.integrated_gpu, PDType.virtual_gpu,
     PDType.cpu, PDType.other_ty}, by decide⟩, by intro x; cases x <;> decide⟩

/-- A physical device as the selection code observes it: an opaque handle
    (modelled by `id`, so that distinct enumerated devices are
    distinguishable) together with the `device_type` field of the
    properties that `instance.get_physical_device_properties` reports for
    it. -/
structure PhysDev where
  id : Nat
  device_type : PDType
deriving DecidableEq

/-- The type filter of Device::pick_physical (mod.rs lines 172-178): only
    VIRTUAL_GPU, DISCRETE_GPU and INTEGRATED_GPU reach pick_between; every
    other type hits the `_ => continue` arm. -/
def isCandidateType (t : PDType) : Bool :=
  match t with
  | PDType.virtual_gpu | PDType.discrete_gpu | PDType.integrated_gpu => true
  | _ => false

/-- Device::pick_between (mod.rs lines 188-214): `this` is the current
    enumeration element, `other` the best-so-far. With no best yet,
    `this` wins; otherwise `this` replaces the best exactly when
    (INTEGRATED over VIRTUAL) or (DISCRETE over VIRTUAL or INTEGRATED);
    in every other pairing (equal types included) the existing best is
    kept. -/
def pick_between (this : PhysDev) (other : Option PhysDev) : Option PhysDev :=
  match other with
  | none => some this
  | some dev =>
    let d :=
      if this.device_type = PDType.integrated_gpu ∧
          dev.device_type = PDType.virtual_gpu then this
      else if this.device_type = PDType.discrete_gpu ∧
          (dev.device_type = PDType.virtual_gpu ∨
           dev.device_type = PDType.integrated_gpu) then this
      else dev
    some d

/-- One iteration of the `for physical_device in all` loop of
    Device::pick_physical (mod.rs lines 170-180): candidates go through
    pick_between, all other types leave `selected` unchanged
    (`_ => continue`). -/
def pick_step (sel : Option PhysDev) (pd : PhysDev) : Option PhysDev :=
  if isCandidateType pd.device_type then pick_between pd sel else sel

/-- Device::pick_physical (mod.rs lines 167-186), taking the enumerated
    device list as input: fold the loop body over the list starting from
    `selected = None`; return the selected device, or
    `NoSuitableDevice` when none was selected. -/
def pick_physical (all : List PhysDev) : Except VulkanError PhysDev :=
  match all.foldl pick_step none with
  | some s => Except.ok s
  | none => Except.error VulkanError.NoSuitableDevice

/-- Specification-side rank of the preference order
    DISCRETE > INTEGRATED > VIRTUAL (> everything else). -/
def typeRank (t : PDType) : Nat :=
  match t with
  | PDType.discrete_gpu => 3
  | PDType.integrated_gpu => 2
  | PDType.virtual_gpu => 1
  | _ => 0

/-- The candidate sublist of an enumeration, in enumeration order. -/
def candidatesOf (l : List PhysDev) : List PhysDev :=
  l.filter (fun d => isCandidateType d.device_type)

/-- Specification-side best rank among the candidates of a list. -/
def bestRank (l : List PhysDev) : Nat :=
  (candidatesOf l).foldr (fun d m => max (typeRank d.device_type) m) 0

/-- Specification-side selection: the first-enumerated candidate whose
    type rank equals the best rank present. -/
def firstBest (l : List PhysDev) : Option PhysDev :=
  (candidatesOf l).find? (fun d => typeRank d.device_type = bestRank l)

/-- Reference recursion: the first element of `b :: l` of maximal rank
    (`b` wins every tie against later elements). -/
def firstMax (b : PhysDev) : List PhysDev → PhysDev
  | [] => b
  | d :: rest =>
    if typeRank b.device_type < typeRank d.device_type then firstMax d rest
    else firstMax b rest

/-- The maximal type rank occurring in a list of devices (0 when empty). -/
def listMaxRank (l : List PhysDev) : Nat :=
  l.foldr (fun d m => max (typeRank d.device_type) m) 0

lemma bestRank_eq_listMaxRank (l : List PhysDev) :
    bestRank l = listMaxRank (candidatesOf l) := rfl

lemma candidatesOf_cons_pos (d : PhysDev) (rest : List PhysDev)
    (hd : isCandidateType d.device_type = true) :
    candidatesOf (d :: rest) = d :: candidatesOf rest := by
  simp [candidatesOf, hd]

lemma candidatesOf_cons_neg (d : PhysDev) (rest : List PhysDev)
    (hd : ¬ isCandidateType d.device_type = true) :
    candidatesOf (d :: rest) = candidatesOf rest := by
  simp [candidatesOf, hd]

/-- For two candidates, pick_between keeps `this` exactly when its type
    outranks the current best; the source's two explicit conditions are
    equivalent to a strict rank comparison on candidate types. -/
lemma pick_between_rank (d b : PhysDev)
    (hd : isCandidateType d.device_type = true)
    (hb : isCandidateType b.device_type = true) :
    pick_between d (some b) =
      some (if typeRank b.device_type < typeRank d.device_type then d else b) := by
  rcases d with ⟨i, td⟩
  rcases b with ⟨j, tb⟩
  cases td <;> cases tb <;>
    simp_all [pick_between, isCandidateType, typeRank]

/-- Folding the loop body from an already-selected candidate `b` selects
    the first element of `b :: candidatesOf l` of maximal rank. -/
lemma foldl_pick_step_some (l : List PhysDev) :
    ∀ b : PhysDev, isCandidateType b.device_type = true →
      l.foldl pick_step (some b) = some (firstMax b (candidatesOf l)) := by
  induction l with
  | nil => intro b _; simp [candidatesOf, firstMax]
  | cons d rest ih =>
    intro b hb
    by_cases hd : isCandidateType d.device_type = true
    · have hstep : pick_step (some b) d =
          some (if typeRank b.device_type < typeRank d.device_type then d else b) := by
        simp [pick_step, hd, pick_between_rank d b hd hb]
      rw [List.foldl_cons, hstep, candidatesOf_cons_pos d rest hd]
      by_cases hlt : typeRank b.device_type < typeRank d.device_type
      · rw [if_pos hlt]
        have hfm : firstMax b (d :: candidatesOf rest) =
            firstMax d (candidatesOf rest) := by
          simp [firstMax, hlt]
        rw [hfm]
        exact ih d hd
      · rw [if_neg hlt]
        have hfm : firstMax b (d :: candidatesOf rest) =
            firstMax b (candidatesOf rest) := by
          simp [firstMax, hlt]
        rw [hfm]
        exact ih b hb
    · have hstep : pick_step (some b) d = some b := by simp [pick_step, hd]
      rw [List.foldl_cons, hstep, candidatesOf_cons_neg d rest hd]
      exact ih b hb

/-- The full loop of pick_physical: starting from `selected = None`, the
    fold selects the first candidate of maximal rank (None when the list
    has no candidate). -/
lemma foldl_pick_step_none (l : List PhysDev) :
    l.foldl pick_step none =
      match candidatesOf l with
      | [] => none
      | c :: cs => some (firstMax c cs) := by
  induction l with
  | nil => simp [candidatesOf]
  | cons d rest ih =>
    by_cases hd : isCandidateType d.device_type = true
    · have hstep : pick_step none d = some d := by
        simp [pick_step, hd, pick_between]
      rw [List.foldl_cons, hstep, candidatesOf_cons_pos d rest hd,
        foldl_pick_step_some rest d hd]
    · have hstep : pick_step none d = none := by simp [pick_step, hd]
      rw [List.foldl_cons, hstep, candidatesOf_cons_neg d rest hd]
      exact ih

lemma listMaxRank_cons (b : PhysDev) (l : List PhysDev) :
    listMaxRank (b :: l) = max (typeRank b.device_type) (listMaxRank l) := rfl

/-- The first element of maximal rank is what `find?` against the
    maximal rank returns. -/
lemma find_max_eq_firstMax : ∀ (l : List PhysDev) (b : PhysDev),
    (b :: l).find? (fun d => typeRank d.device_type = listMaxRank (b :: l)) =
      some (firstMax b l) := by
  intro l
  induction l with
  | nil =>
    intro b
    have hp : (decide (typeRank b.device_type = listMaxRank [b])) = true := by
      simp [listMaxRank]
    simp [List.find?, hp, firstMax]
  | cons d rest ih =>
    intro b
    by_cases hlt : typeRank b.device_type < typeRank d.device_type
    · have hM : listMaxRank (b :: d :: rest) = listMaxRank (d :: rest) := by
        rw [listMaxRank_cons b (d :: rest)]
        refine Nat.max_eq_right ?_
        rw [listMaxRank_cons]
        exact le_trans (le_of_lt hlt) (Nat.le_max_left _ _)
      have hpb : (decide (typeRank b.device_type =
          listMaxRank (b :: d :: rest))) = false := by
        rw [hM, listMaxRank_cons]
        simp only [decide_eq_false_iff_not]
        intro heq
        have : typeRank d.device_type ≤ typeRank b.device_type := by
          rw [heq]; exact Nat.le_max_left _ _
        omega
      have hfm : firstMax b (d :: rest) = firstMax d rest := by
        simp [firstMax, hlt]
      rw [hfm]
      rw [List.find?_cons]
      simp only [hpb]
      rw [hM]
      exact ih d
    · have hle : typeRank d.device_type ≤ typeRank b.device_type := by omega
      have hM : listMaxRank (b :: d :: rest) = listMaxRank (b :: rest) := by
        rw [listMaxRank_cons b (d :: rest), listMaxRank_cons d rest,
          listMaxRank_cons b rest]
        omega
      rw [hM]
      have hfm : firstMax b (d :: rest) = firstMax b rest := by
        simp [firstMax, hlt]
      rw [hfm]
      have hrec := ih b
      rw [List.find?_cons] at hrec
      rw [List.find?_cons]
      cases hpb : (decide (typeRank b.device_type =
          listMaxRank (b :: rest))) with
      | true =>
        rw [hpb] at hrec
        simp only at hrec ⊢
        exact hrec
      | false =>
        rw [hpb] at hrec
        simp only at hrec ⊢
        have hpd : (decide (typeRank d.device_type =
            listMaxRank (b :: rest))) = false := by
          simp only [decide_eq_false_iff_not]
          simp only [decide_eq_false_iff_not] at hpb
          intro heq
          have hbleM : typeRank b.device_type ≤ listMaxRank (b :: rest) := by
            rw [listMaxRank_cons]; exact Nat.le_max_left _ _
          omega
        rw [List.find?_cons]
        simp only [hpd]
        exact hrec

/-- `vk::QueueFlags::GRAPHICS`: bit 0 (value 0x1) of the queue flags
    bitmask. -/
def graphicsFlagBit : Nat := 1

/-- One entry of get_physical_device_queue_family_properties: only the
    `queue_flags` bitmask is read by the source. -/
structure QueueFamilyProperties where
  queue_flags : Nat
deriving DecidableEq

/-- `queue_family.queue_flags.contains(vk::QueueFlags::GRAPHICS)`
    (mod.rs line 251): all bits of GRAPHICS are set in the mask. -/
def containsGraphics (flags : Nat) : Bool :=
  flags &&& graphicsFlagBit == graphicsFlagBit

/-- The loop of Device::find_queue_family_index (mod.rs lines 249-255)
    with the running `index` counter explicit: return the current index
    at the first family whose flags contain GRAPHICS, else advance. -/
def find_queue_family_loop (index : Nat) :
    List QueueFamilyProperties → Option Nat
  | [] => none
  | qf :: rest =>
    if containsGraphics qf.queue_flags then some index
    else find_queue_family_loop (index + 1) rest

/-- Device::find_queue_family_index (mod.rs lines 243-257), taking the
    device's queue family list as input; `index` starts at 0. -/
def find_queue_family_index (queue_families : List QueueFamilyProperties) :
    Option Nat :=
  find_queue_family_loop 0 queue_families

/-- The queue-family stage of Device::new (mod.rs lines 106-111):
    `Some(u)` is used as the queue family index, `None` aborts
    construction with `VulkanError::UnableToFindQueueFamily`. -/
def queue_family_step (queue_families : List QueueFamilyProperties) :
    Except VulkanError Nat :=
  match find_queue_family_index queue_families with
  | some u => Except.ok u
  | none => Except.error VulkanError.UnableToFindQueueFamily

/-- `vk::PhysicalDeviceFeatures`, modelled by representative feature
    booleans; `default()` zero-initializes every field (all features
    disabled). -/
structure PhysicalDeviceFeatures where
  robust_buffer_access : Bool
  geometry_shader : Bool
  tessellation_shader : Bool
deriving DecidableEq

/-- `vk::PhysicalDeviceFeatures::default()`. -/
def zeroedFeatures : PhysicalDeviceFeatures :=
  { robust_buffer_access := false, geometry_shader := false,
    tessellation_shader := false }

/-- `vk::DeviceQueueCreateInfo`: family index, queue count, and the
    priorities array (`none` models a null `p_queue_priorities`). -/
structure DeviceQueueCreateInfo where
  queue_family_index : Nat
  queue_count : Nat
  p_queue_priorities : Option (List Nat)
deriving DecidableEq

/-- `vk::DeviceQueueCreateInfo::default()`: zero-initialized (family 0,
    count 0, null priorities pointer). -/
def zeroedQueueCreateInfo : DeviceQueueCreateInfo :=
  { queue_family_index := 0, queue_count := 0, p_queue_priorities := none }

/-- The ash builder method `.queue_family_index(i)`: sets only the
    family index field. (The builder `.queue_priorities(..)`, the one
    call that would also set `queue_count`, is never made by the
    source.) -/
def withFamilyIndex (s : DeviceQueueCreateInfo) (i : Nat) :
    DeviceQueueCreateInfo :=
  { s with queue_family_index := i }

/-- `vk::DeviceCreateInfo` as the source populates it (mod.rs lines
    236-239): the queue-create array, the enabled extension names, and
    the enabled feature block. -/
structure DeviceCreateInfo where
  queue_create_infos : List DeviceQueueCreateInfo
  enabled_extension_names : List String
  enabled_features : PhysicalDeviceFeatures
deriving DecidableEq

/-- Device::create_logical (mod.rs lines 227-241), up to the create-info
    submitted to `instance.create_device`:
    `features = PhysicalDeviceFeatures::default()`;
    `queue_info = DeviceQueueCreateInfo::default()
       .queue_family_index(queue_family_index)`;
    `create_info = DeviceCreateInfo::default()
       .queue_create_infos(slice::from_ref(&queue_info))
       .enabled_extension_names(extensions)
       .enabled_features(&features)`
    (`slice::from_ref` is the one-element slice). -/
def create_logical_info (extensions : List String)
    (queue_family_index : Nat) : DeviceCreateInfo :=
  let features := zeroedFeatures
  let queue_info := withFamilyIndex zeroedQueueCreateInfo queue_family_index
  { queue_create_infos := [queue_info],
    enabled_extension_names := extensions,
    enabled_features := features }

/-- `vk::Extent2D`. -/
structure Extent2D where
  width : Nat
  height : Nat
deriving DecidableEq

/-- `vk::SwapchainCreateInfoKHR`, restricted to the fields relevant
    here: the surface handle and the image extent. `default()`
    zero-initializes (surface null, extent 0 x 0). -/
structure SwapchainCreateInfoKHR where
  surface : Nat
  image_extent : Extent2D
deriving DecidableEq

/-- `vk::SwapchainCreateInfoKHR::default()`. -/
def zeroedSwapchainInfo : SwapchainCreateInfoKHR :=
  { surface := 0, image_extent := { width := 0, height := 0 } }

/-- The ash builder method `.surface(s)`: sets only the surface field. -/
def withSurface (c : SwapchainCreateInfoKHR) (s : Nat) :
    SwapchainCreateInfoKHR :=
  { c with surface := s }

/-- The swapchain create-info built by Device::link_to_window (mod.rs
    line 275): `SwapchainCreateInfoKHR::default().surface(surface)`.
    The window - in particular its current pixel size, passed here as
    `window_extent` - is in scope in the source but never read while
    building the create-info. -/
def link_to_window_swapchain_info (surface : Nat)
    (_window_extent : Extent2D) : SwapchainCreateInfoKHR :=
  withSurface zeroedSwapchainInfo surface

/-- The graphics-API destroy calls that teardown can issue. -/
inductive DestroyCall
  | DestroySwapchain
  | DestroySurface
  | DestroyWindow
  | DestroyDevice
  | DestroyInstance
deriving DecidableEq

/-- `impl Drop for Device` (mod.rs lines 281-288): `destroy_device`
    then `destroy_instance`; the remaining fields (entry, physical,
    swapchain_loader) trigger no API destroy call. -/
def device_drop_calls : List DestroyCall :=
  [DestroyCall.DestroyDevice, DestroyCall.DestroyInstance]

/-- Dropping a WindowView (mod.rs lines 55-59): the struct has no Drop
    impl, so only its fields drop, in declaration order window, surface,
    swapchain. Dropping the winit `Window` destroys the native window;
    `vk::SurfaceKHR` and `vk::SwapchainKHR` are plain handles whose drop
    issues no Vulkan destroy call, so the surface and the swapchain are
    never destroyed. -/
def window_view_drop_calls : List DestroyCall :=
  [DestroyCall.DestroyWindow]

/-- Shutdown teardown of `App { device, view }` (main.rs lines 14-17):
    when the `App` value is dropped at the end of main (or during
    unwinding), Rust drops its fields in declaration order - `device`
    first, then `view` - so the destroy calls are the Device drop calls
    followed by the WindowView drop calls. -/
def app_shutdown_calls : List DestroyCall :=
  device_drop_calls ++ window_view_drop_calls

/-- The five-call teardown order that the specification demands on
    shutdown from a window-bound state: swapchain, surface, window,
    logical device, instance. -/
def spec_shutdown_order : List DestroyCall :=
  [DestroyCall.DestroySwapchain, DestroyCall.DestroySurface,
   DestroyCall.DestroyWindow, DestroyCall.DestroyDevice,
   DestroyCall.DestroyInstance]

/-- The App struct of main.rs (lines 14-17): the owned rendering Device
    and the optional WindowView, both opaque handles at this level. -/
structure App where
  device : Nat
  view : Option Nat
deriving DecidableEq

/-- Counts of the create calls observed while handling one event:
    windows (event_loop.create_window), surfaces
    (ash_window::create_surface) and swapchains (create_swapchain). -/
structure CreateCounts where
  windows_created : Nat
  surfaces_created : Nat
  swapchains_created : Nat
deriving DecidableEq

/-- App::resumed (main.rs lines 31-35): if a view is already bound,
    return immediately (nothing created, fields untouched); otherwise
    WindowView::new runs - creating one window, one surface and one
    swapchain - and the fresh view (`freshView` stands for the value a
    successful WindowView::new returns) is stored in `self.view`. -/
def App.resumed (a : App) (freshView : Nat) : App × CreateCounts :=
  match a.view with
  | some _ =>
    (a, { windows_created := 0, surfaces_created := 0,
          swapchains_created := 0 })
  | none =>
    ({ a with view := some freshView },
     { windows_created := 1, surfaces_created := 1,
       swapchains_created := 1 })

lemma find_queue_family_loop_eq_findIdx (l : List QueueFamilyProperties) :
    ∀ i, find_queue_family_loop i l =
      l.findIdx? (fun qf => containsGraphics qf.queue_flags) i := by
  induction l with
  | nil => intro i; simp [find_queue_family_loop, List.findIdx?]
  | cons qf rest ih =>
    intro i
    rw [List.findIdx?_cons]
    by_cases h : containsGraphics qf.queue_flags = true
    · simp [find_queue_family_loop, h]
    · simp [find_queue_family_loop, h, ih (i + 1)]

lemma find_queue_family_loop_none_iff (l : List QueueFamilyProperties) :
    ∀ i, (find_queue_family_loop i l = none ↔
      ∀ qf ∈ l, containsGraphics qf.queue_flags = false) := by
  induction l with
  | nil => intro i; simp [find_queue_family_loop]
  | cons qf rest ih =>
    intro i
    by_cases h : containsGraphics qf.queue_flags = true
    · simp [find_queue_family_loop, h]
    · simp [find_queue_family_loop, h, ih (i + 1)]

/-- C3: for every enumerated candidate list, the selector returns the
    first-enumerated device of the best type present under the total
    preference order DISCRETE > INTEGRATED > VIRTUAL: whenever the
    specification-side selection `firstBest` - the first-enumerated
    candidate whose type rank equals the best rank present in the list
    (so a DISCRETE device whenever any is present, and the
    first-enumerated device among equal-ranked best candidates) - names
    a device, Device::pick_physical returns exactly that device. -/
theorem pick_physical_selects_first_of_best_type
    (l : List PhysDev) (d : PhysDev) (h : firstBest l = some d) :
    pick_physical l = Except.ok d := by
  unfold firstBest at h
  unfold pick_physical
  rw [foldl_pick_step_none]
  cases hc : candidatesOf l with
  | nil =>
    rw [hc] at h
    simp [List.find?] at h
  | cons c cs =>
    rw [bestRank_eq_listMaxRank] at h
    rw [hc] at h
    rw [find_max_eq_firstMax cs c] at h
    have hd : firstMax c cs = d := Option.some.inj h
    exact congrArg Except.ok hd

/-- Witness for C3 at Scenario A: candidates
    [INTEGRATED, DISCRETE, VIRTUAL]; the selector returns the DISCRETE
    device (enumerated second). -/
theorem pick_physical_selects_first_of_best_type_witness :
    firstBest
        [PhysDev.mk 0 PDType.integrated_gpu, PhysDev.mk 1 PDType.discrete_gpu,
         PhysDev.mk 2 PDType.virtual_gpu] =
      some (PhysDev.mk 1 PDType.discrete_gpu) ∧
    pick_physical
        [PhysDev.mk 0 PDType.integrated_gpu, PhysDev.mk 1 PDType.discrete_gpu,
         PhysDev.mk 2 PDType.virtual_gpu] =
      Except.ok (PhysDev.mk 1 PDType.discrete_gpu) :=
  ⟨by decide, pick_physical_selects_first_of_best_type _ _ (by decide)⟩

/-- C4: physical device selection fails with NoSuitableDevice exactly
    when the enumeration contains no device of type discrete-GPU,
    integrated-GPU or virtual-GPU (in particular for an empty
    enumeration), and devices of every other type are skipped without
    affecting the result: pick_physical on the full enumeration equals
    pick_physical on its candidate sublist. -/
theorem pick_physical_no_suitable_device_iff (l : List PhysDev) :
    (pick_physical l = Except.error VulkanError.NoSuitableDevice ↔
      candidatesOf l = []) ∧
    pick_physical l = pick_physical (candidatesOf l) := by
  have hcc : candidatesOf (candidatesOf l) = candidatesOf l := by
    simp [candidatesOf, List.filter_filter]
  constructor
  · unfold pick_physical
    rw [foldl_pick_step_none]
    cases hc : candidatesOf l with
    | nil => simp
    | cons c cs => simp
  · unfold pick_physical
    rw [foldl_pick_step_none l, foldl_pick_step_none (candidatesOf l), hcc]

/-- C5: queue-family lookup scans the families in enumeration order and
    returns the index of the first one advertising graphics support
    (List.findIdx? from start index 0), and the queue-family stage of
    Device::new fails with UnableToFindQueueFamily if and only if no
    family advertises graphics support (this stage runs after instance
    creation and physical-device selection have succeeded). -/
theorem queue_family_lookup_spec (qfs : List QueueFamilyProperties) :
    find_queue_family_index qfs =
      qfs.findIdx? (fun qf => containsGraphics qf.queue_flags) ∧
    (queue_family_step qfs = Except.error VulkanError.UnableToFindQueueFamily ↔
      ∀ qf ∈ qfs, containsGraphics qf.queue_flags = false) := by
  constructor
  · exact find_queue_family_loop_eq_findIdx qfs 0
  · unfold queue_family_step find_queue_family_index
    cases hfind : find_queue_family_loop 0 qfs with
    | none =>
      simp only [hfind]
      simp only [true_iff]
      exact (find_queue_family_loop_none_iff qfs 0).mp hfind
    | some u =>
      simp only [hfind]
      constructor
      · intro hcontra
        cases hcontra
      · intro hall
        have hnone := (find_queue_family_loop_none_iff qfs 0).mpr hall
        rw [hfind] at hnone
        cases hnone

/-- C1: the merged instance list is NOT what the claim states. At
    Scenario C (caller instance extensions ["ext_a"], platform-mandated
    ["ext_b", "ext_c"], caller device extensions []), the destination
    slice is created one element short (length l_inst_cp - 1, mod.rs
    line 142), so the code returns the merged instance list
    ["ext_a", "ext_b"]: the last platform-mandated name "ext_c" is
    missing and the size is 2, not 3. -/
theorem extension_merge_scenario_c_eval :
    efficiently_handle_extensions ["ext_b", "ext_c"] ["ext_a"] [] =
      CRes.ok (["ext_a", "ext_b"], []) ∧
    "ext_c" ∉ (["ext_a", "ext_b"] : List String) ∧
    (["ext_a", "ext_b"] : List String).length ≠ 3 :=
  ⟨rfl, by decide, by decide⟩

/-- C2: the swapchain extension is NOT added to the device list. The
    device destination slice is created with length
    l_dev_cp - 1 = devExts.length (mod.rs line 143), so the copy loop
    fills it entirely with the caller names and never reaches
    device_required = [swapchain::NAME]. Evaluated at caller device list
    ["ext_d"] (platform instance list ["VK_KHR_surface",
    "VK_KHR_xlib_surface"]): the final device list is ["ext_d"], which
    does not contain VK_KHR_swapchain. -/
theorem device_extension_list_missing_swapchain :
    efficiently_handle_extensions ["VK_KHR_surface", "VK_KHR_xlib_surface"]
        [] ["ext_d"] =
      CRes.ok (["VK_KHR_surface"], ["ext_d"]) ∧
    swapchainExtName ∉ (["ext_d"] : List String) :=
  ⟨rfl, by decide⟩

/-- C8: a caller-supplied instance extension name containing an interior
    NUL byte makes extension negotiation PANIC with "CString error" (the
    source unwraps the CString conversion with `.expect`, mod.rs lines
    149-151) instead of returning the InvalidExtensionName error (the
    `VulkanError::NulError` variant, which the source's `From<NulError>`
    impl would produce but which is never reached). -/
theorem nul_extension_name_panics :
    efficiently_handle_extensions ["ext_b"] ["e\x00x"] [] =
      CRes.panic "CString error" ∧
    efficiently_handle_extensions ["ext_b"] ["e\x00x"] [] ≠
      CRes.err VulkanError.NulError :=
  ⟨rfl, by decide⟩

/-- C6: the device create-info submitted by Device::create_logical does
    contain exactly one queue-create entry for the selected family, the
    merged extension list, and the all-default feature block - but that
    entry requests queue count 0 (the zero-initialized struct default;
    `.queue_priorities`, the builder call that would set the count and
    the priority pointer, is never made), not queue count 1 with a
    default priority as the claim states. Evaluated at family index 0
    and extension list [swapchainExtName]. -/
theorem create_logical_queue_count_zero :
    create_logical_info [swapchainExtName] 0 =
      { queue_create_infos :=
          [{ queue_family_index := 0, queue_count := 0,
             p_queue_priorities := none }],
        enabled_extension_names := [swapchainExtName],
        enabled_features := zeroedFeatures } ∧
    (create_logical_info [swapchainExtName] 0).queue_create_infos.map
        (fun q => q.queue_count) ≠ [1] :=
  ⟨rfl, by decide⟩

/-- C7: the initial swapchain create-info built by Device::link_to_window
    carries the default (zero) extent, not the window's current pixel
    dimensions: the source sets only `.surface(..)` on
    SwapchainCreateInfoKHR::default() and never reads the window's size.
    Evaluated at surface handle 1 and window extent 800 x 600, the
    image_extent field is 0 x 0. -/
theorem link_to_window_ignores_window_extent :
    (link_to_window_swapchain_info 1 (Extent2D.mk 800 600)).image_extent =
      Extent2D.mk 0 0 ∧
    (link_to_window_swapchain_info 1 (Extent2D.mk 800 600)).image_extent ≠
      Extent2D.mk 800 600 :=
  ⟨rfl, by decide⟩

/-- C9: on shutdown from a state with a bound window the code issues
    only destroy_device, destroy_instance (Drop for Device; App.device
    drops before App.view) followed by the native window drop; the
    swapchain and surface destroy calls are issued zero times, not once,
    and the emitted sequence differs from the specified order swapchain,
    surface, window, logical device, instance. -/
theorem shutdown_destroy_calls_eval :
    app_shutdown_calls =
      [DestroyCall.DestroyDevice, DestroyCall.DestroyInstance,
       DestroyCall.DestroyWindow] ∧
    app_shutdown_calls.count DestroyCall.DestroySwapchain = 0 ∧
    app_shutdown_calls.count DestroyCall.DestroySurface = 0 ∧
    app_shutdown_calls ≠ spec_shutdown_order := by
  decide

/-- C10: when a WindowView is already bound, a subsequent resumed event
    is a no-op: no window, surface or swapchain is created and the App
    (both its device field and its view field) is returned unchanged. -/
theorem resumed_noop_when_view_bound (a : App) (freshView v : Nat)
    (h : a.view = some v) :
    App.resumed a freshView =
      (a, { windows_created := 0, surfaces_created := 0,
            swapchains_created := 0 }) := by
  unfold App.resumed
  rw [h]

/-- Witness for C10: an App with device handle 5 and a bound view handle
    7 handles a resumed event without changes or create calls. -/
theorem resumed_noop_when_view_bound_witness :
    (App.mk 5 (some 7)).view = some 7 ∧
    App.resumed (App.mk 5 (some 7)) 9 =
      (App.mk 5 (some 7),
       { windows_created := 0, surfaces_created := 0,
         swapchains_created := 0 }) :=
  ⟨rfl, resumed_noop_when_view_bound (App.mk 5 (some 7)) 9 7 rfl⟩
